import Mathlib

/-!
Verification of the blogicum blog application (`blog/views.py`, `blog/forms.py`)
against its natural-language specification.

The Django views are shallowly embedded: the database is an explicit record of
lists, each request handler is a pure function from the database, the acting
identity and the request data to a new database and a `Response` value.
Timestamps are naturals.  The helpers `query_post` and `posts_pagination` live
in `blog/utils.py`, which is not part of the provided sources; they are
modelled from the specification (see their doc comments).
-/

namespace Blogicum

/-- A registered user (the fields touched by `ProfileForm`). -/
structure User where
  id : Nat
  username : String
  first_name : String
  last_name : String
  email : String
deriving Repr, DecidableEq

/-- A post category (`blog.models.Category`): slug-addressed, with a publication flag. -/
structure Category where
  id : Nat
  title : String
  slug : String
  description : String
  is_published : Bool
deriving Repr, DecidableEq

/-- A blog post (`blog.models.Post`).  `author`, `category` and `location` are
foreign keys stored as identifiers; `category` and `location` are nullable. -/
structure Post where
  id : Nat
  title : String
  text : String
  pub_date : Nat
  is_published : Bool
  created_at : Nat
  author : Nat
  category : Option Nat
  location : Option Nat
deriving Repr, DecidableEq

/-- A comment on a post (`blog.models.Comment`). -/
structure Comment where
  id : Nat
  text : String
  created_at : Nat
  author : Nat
  post : Nat
deriving Repr, DecidableEq

/-- The persistent state visible to the handlers. -/
structure Db where
  users : List User
  categories : List Category
  posts : List Post
  comments : List Comment
deriving Repr, DecidableEq

/-- Django's `get_object_or_404` on a list of records: the first record
satisfying the predicate, or `none` (which handlers turn into a 404). -/
def get_object_or_404 (xs : List α) (pred : α → Bool) : Option α :=
  xs.find? pred

/-- Ordering used by `query_post`: posts by `pub_date` descending. -/
def postDesc (a b : Post) : Prop := b.pub_date ≤ a.pub_date

instance : DecidableRel postDesc := fun a b => Nat.decLe b.pub_date a.pub_date

/-- Ordering used for comments on the detail view: `created_at` ascending. -/
def commentAsc (a b : Comment) : Prop := a.created_at ≤ b.created_at

instance : DecidableRel commentAsc := fun a b => Nat.decLe a.created_at b.created_at

instance : IsTotal Comment commentAsc := ⟨fun a b => Nat.le_total a.created_at b.created_at⟩

instance : IsTrans Comment commentAsc := ⟨fun _ _ _ h h2 => Nat.le_trans h h2⟩

/-- Whether a post's category is absent or published (part of the visibility
predicate of spec §3/§4.1: `category is null OR category.is_published`). -/
def categoryPublished (db : Db) : Option Nat → Bool
  | none => true
  | some cid =>
    match db.categories.find? (fun c => c.id == cid) with
    | none => false
    | some c => c.is_published

/-- Modelled from the spec: the visibility predicate applied by `query_post`
(`blog/utils.py` is absent from the sources).  Spec §3/§4.1: a post is visible
to non-authors iff `is_published == true AND pub_date <= currentTime AND
(category is null OR category.is_published == true)`. -/
def postVisible (db : Db) (now : Nat) (p : Post) : Bool :=
  p.is_published && decide (p.pub_date ≤ now) && categoryPublished db p.category

/-- Modelled from the spec: `query_post(manager, filters)` from `blog/utils.py`
(absent from the sources).  Spec §4.1 `visiblePosts`: when `filters` holds it
keeps only posts passing `postVisible`, otherwise it returns the collection
unfiltered; either way the result is ordered by `pub_date` descending. -/
def query_post (db : Db) (now : Nat) (manager : List Post) (filters : Bool) : List Post :=
  List.insertionSort postDesc (if filters then manager.filter (postVisible db now) else manager)

/-- One page of a paginated listing, as returned by the framework paginator. -/
structure Page (α : Type) where
  items : List α
  number : Nat
  hasNext : Bool
  hasPrev : Bool
  totalPages : Nat
deriving Repr, DecidableEq

/-- Number of pages for a sequence of the given length (at least one page). -/
def totalPagesOf (len pageSize : Nat) : Nat :=
  max 1 ((len + pageSize - 1) / pageSize)

/-- A page number clamped into the valid range `1 .. total`. -/
def clampPage (pageNumber total : Nat) : Nat :=
  min (max pageNumber 1) total

/-- Modelled from the spec: the paginator used by `posts_pagination` in
`blog/utils.py` (absent from the sources).  Spec §4.2: fixed page size, an
out-of-range page number clamps to the nearest valid page (first or last)
rather than erroring. -/
def paginate (xs : List α) (pageNumber pageSize : Nat) : Page α :=
  { items := ((xs.drop ((clampPage pageNumber (totalPagesOf xs.length pageSize) - 1) * pageSize)).take pageSize)
    number := clampPage pageNumber (totalPagesOf xs.length pageSize)
    hasNext := decide (clampPage pageNumber (totalPagesOf xs.length pageSize) < totalPagesOf xs.length pageSize)
    hasPrev := decide (1 < clampPage pageNumber (totalPagesOf xs.length pageSize))
    totalPages := totalPagesOf xs.length pageSize }

/-- Modelled from the spec: `posts_pagination` from `blog/utils.py` (absent
from the sources).  Spec §4.2: page size is fixed at 10. -/
def posts_pagination (xs : List Post) (pageNumber : Nat) : Page Post :=
  paginate xs pageNumber 10

/-- Data submitted through `PostForm`.  The form is declared in
`blog/forms.py` with `exclude = ('author', 'created_at')`, so an `author`
value present in the raw request data is never part of the cleaned data; the
`author` field below records such a client-supplied value only to show the
handlers ignore it.  `valid` abstracts the form library's validation verdict. -/
structure PostSubmission where
  title : String
  text : String
  pub_date : Nat
  is_published : Bool
  category : Option Nat
  location : Option Nat
  author : Option Nat
  valid : Bool
deriving Repr, DecidableEq

/-- Data submitted through `CommentForm` (`fields = ('text',)`). -/
structure CommentSubmission where
  text : String
  valid : Bool
deriving Repr, DecidableEq

/-- Data submitted through `ProfileForm`
(`fields = ('username', 'first_name', 'last_name', 'email')`). -/
structure ProfileSubmission where
  username : String
  first_name : String
  last_name : String
  email : String
  valid : Bool
deriving Repr, DecidableEq

/-- `PostForm.save(commit=False)` on a fresh instance: every editable field
comes from the cleaned data; `author` is excluded from the form and left at a
placeholder until the handler assigns it, `created_at` is auto-set. -/
def PostForm_new (s : PostSubmission) (newId createdAt : Nat) : Post :=
  { id := newId, title := s.title, text := s.text, pub_date := s.pub_date,
    is_published := s.is_published, created_at := createdAt, author := 0,
    category := s.category, location := s.location }

/-- `PostForm(data, instance=post).save()`: editable fields are overwritten
from the cleaned data; `author` and `created_at` are excluded and preserved. -/
def PostForm_instance (s : PostSubmission) (p : Post) : Post :=
  { p with
    title := s.title
    text := s.text
    pub_date := s.pub_date
    is_published := s.is_published
    category := s.category
    location := s.location }

/-- `CommentForm(data, instance=comment).save()`: only `text` is editable. -/
def CommentForm_instance (s : CommentSubmission) (c : Comment) : Comment :=
  { c with text := s.text }

/-- `ProfileForm(data, instance=user).save()`. -/
def ProfileForm_instance (s : ProfileSubmission) (u : User) : User :=
  { u with
    username := s.username
    first_name := s.first_name
    last_name := s.last_name
    email := s.email }

/-- Redirect targets used by the views (`blog:index`, `blog:post_detail`,
`blog:profile`). -/
inductive Target where
  | index
  | post_detail (post_id : Nat)
  | profile (username : String)
deriving Repr, DecidableEq

/-- The outcome of a request handler: a 404, a redirect, or a rendered
template together with its load-bearing context. -/
inductive Response where
  | notFound
  | redirect (target : Target)
  | renderIndex (page : Page Post)
  | renderCategory (category : Category) (page : Page Post)
  | renderDetail (post : Post) (comments : List Comment)
  | renderCreate (form : Option PostSubmission)
  | renderProfile (profileUser : User) (page : Page Post)
  | renderUser (form : ProfileSubmission)
  | renderComment (form : Option CommentSubmission) (comment : Comment)
deriving Repr, DecidableEq

/-- Whether a response renders a template (as opposed to a redirect or 404). -/
def Response.isRender : Response → Bool
  | .notFound => false
  | .redirect _ => false
  | _ => true

/-- Whether the acting identity (possibly anonymous) is the user with the
given id; `post.author == request.user` in the views. -/
def isAuthorU (viewer : Option User) (authorId : Nat) : Bool :=
  match viewer with
  | none => false
  | some u => u.id == authorId

/-- The queryset behind the index page: `query_post()` with its default
manager (all posts) and default filtering. -/
def index_queryset (db : Db) (now : Nat) : List Post :=
  query_post db now db.posts true

/-- The queryset behind a category page:
`query_post(manager=category.posts)`. -/
def category_queryset (db : Db) (now : Nat) (cat : Category) : List Post :=
  query_post db now (db.posts.filter (fun p => p.category == some cat.id)) true

/-- The queryset behind a profile page: `query_post(manager=profile.posts,
filters=profile != request.user)`. -/
def profile_queryset (db : Db) (now : Nat) (viewer : Option User) (prof : User) : List Post :=
  query_post db now (db.posts.filter (fun p => p.author == prof.id)) (!isAuthorU viewer prof.id)

/-- The comments shown on a post's detail view:
`post.comments.order_by('created_at')`. -/
def comments_of (db : Db) (post_id : Nat) : List Comment :=
  List.insertionSort commentAsc (db.comments.filter (fun c => c.post == post_id))

/-- `blog.views.index`. -/
def index (db : Db) (now : Nat) (pageNumber : Nat) : Response :=
  Response.renderIndex (posts_pagination (index_queryset db now) pageNumber)

/-- `blog.views.category_posts`. -/
def category_posts (db : Db) (now : Nat) (category_slug : String) (pageNumber : Nat) : Response :=
  match get_object_or_404 db.categories (fun c => c.slug == category_slug && c.is_published) with
  | none => Response.notFound
  | some category =>
    Response.renderCategory category
      (posts_pagination (category_queryset db now category) pageNumber)

/-- `blog.views.post_detail`: fetch by id (404 on miss); a non-author viewer
must additionally find the post in the filtered `query_post()` queryset. -/
def post_detail (db : Db) (now : Nat) (viewer : Option User) (post_id : Nat) : Response :=
  match get_object_or_404 db.posts (fun p => p.id == post_id) with
  | none => Response.notFound
  | some post0 =>
    let post1 :=
      if isAuthorU viewer post0.author then some post0
      else get_object_or_404 (query_post db now db.posts true) (fun p => p.id == post_id)
    match post1 with
    | none => Response.notFound
    | some post => Response.renderDetail post (comments_of db post.id)

/-- `blog.views.create_post` (login required, so the viewer is a `User`).
`request.POST or None` is modelled by the `Option` on the submission. -/
def create_post (db : Db) (now : Nat) (user : User) (s : Option PostSubmission)
    (newId : Nat) : Db × Response :=
  match s with
  | some form =>
    if form.valid then
      let post0 := PostForm_new form newId now
      let post := { post0 with author := user.id }
      ({ db with posts := db.posts ++ [post] },
       Response.redirect (Target.profile user.username))
    else (db, Response.renderCreate s)
  | none => (db, Response.renderCreate none)

/-- `blog.views.edit_post`. -/
def edit_post (db : Db) (user : User) (post_id : Nat)
    (s : Option PostSubmission) : Db × Response :=
  match get_object_or_404 db.posts (fun p => p.id == post_id) with
  | none => (db, Response.notFound)
  | some post =>
    if !(user.id == post.author) then
      (db, Response.redirect (Target.post_detail post_id))
    else
      match s with
      | some form =>
        if form.valid then
          ({ db with posts := (db.posts.map
              (fun p => if p.id == post_id then PostForm_instance form p else p)) },
           Response.redirect (Target.post_detail post_id))
        else (db, Response.renderCreate s)
      | none => (db, Response.renderCreate none)

/-- `blog.views.delete_post`: the bound form is only rendered; deletion
happens on any POST request by the author. -/
def delete_post (db : Db) (user : User) (post_id : Nat) (isPost : Bool)
    (s : Option PostSubmission) : Db × Response :=
  match get_object_or_404 db.posts (fun p => p.id == post_id) with
  | none => (db, Response.notFound)
  | some post =>
    if !(user.id == post.author) then
      (db, Response.redirect (Target.post_detail post_id))
    else if isPost then
      ({ db with posts := db.posts.filter (fun p => !(p.id == post_id)) },
       Response.redirect Target.index)
    else (db, Response.renderCreate s)

/-- `blog.views.profile`. -/
def profile (db : Db) (now : Nat) (viewer : Option User) (username : String)
    (pageNumber : Nat) : Response :=
  match get_object_or_404 db.users (fun u => u.username == username) with
  | none => Response.notFound
  | some prof =>
    Response.renderProfile prof
      (posts_pagination (profile_queryset db now viewer prof) pageNumber)

/-- `blog.views.edit_profile`. -/
def edit_profile (db : Db) (user : User) (s : ProfileSubmission) : Db × Response :=
  if s.valid then
    ({ db with users := (db.users.map
        (fun u => if u.id == user.id then ProfileForm_instance s u else u)) },
     Response.redirect (Target.profile (ProfileForm_instance s user).username))
  else (db, Response.renderUser s)

/-- `blog.views.add_comment`: on a valid form the comment is persisted with
`post` and `author` server-assigned; valid or not, the handler redirects to
the post's detail view. -/
def add_comment (db : Db) (now : Nat) (user : User) (post_id : Nat)
    (s : Option CommentSubmission) (newId : Nat) : Db × Response :=
  match get_object_or_404 db.posts (fun p => p.id == post_id) with
  | none => (db, Response.notFound)
  | some post =>
    let db2 :=
      match s with
      | some form =>
        if form.valid then
          { db with comments := (db.comments ++
              [{ id := newId, text := form.text, created_at := now,
                 author := user.id, post := post.id }]) }
        else db
      | none => db
    (db2, Response.redirect (Target.post_detail post_id))

/-- `blog.views.edit_comment`: the comment is fetched by `comment_id` alone;
every redirect uses the `post_id` taken from the URL. -/
def edit_comment (db : Db) (user : User) (post_id comment_id : Nat)
    (s : Option CommentSubmission) : Db × Response :=
  match get_object_or_404 db.comments (fun c => c.id == comment_id) with
  | none => (db, Response.notFound)
  | some comment =>
    if !(user.id == comment.author) then
      (db, Response.redirect (Target.post_detail post_id))
    else
      match s with
      | some form =>
        if form.valid then
          ({ db with comments := (db.comments.map
              (fun c => if c.id == comment_id then CommentForm_instance form c else c)) },
           Response.redirect (Target.post_detail post_id))
        else (db, Response.renderComment s comment)
      | none => (db, Response.renderComment none comment)

/-- `blog.views.delete_comment`: fetched by `comment_id` alone; deletion on
POST by the author; every redirect uses the URL's `post_id`. -/
def delete_comment (db : Db) (user : User) (post_id comment_id : Nat)
    (isPost : Bool) : Db × Response :=
  match get_object_or_404 db.comments (fun c => c.id == comment_id) with
  | none => (db, Response.notFound)
  | some comment =>
    if !(user.id == comment.author) then
      (db, Response.redirect (Target.post_detail post_id))
    else if isPost then
      ({ db with comments := db.comments.filter (fun c => !(c.id == comment_id)) },
       Response.redirect (Target.post_detail post_id))
    else (db, Response.renderComment none comment)

/-! ### Shared lemmas -/

theorem mem_query_post_false {db : Db} {now : Nat} {mgr : List Post} {q : Post} :
    q ∈ query_post db now mgr false ↔ q ∈ mgr := by
  simp [query_post]

theorem mem_query_post_true_iff {db : Db} {now : Nat} {mgr : List Post} {q : Post} :
    q ∈ query_post db now mgr true ↔ q ∈ mgr ∧ postVisible db now q = true := by
  simp [query_post, List.mem_filter]

theorem not_mem_query_post_filtered {db : Db} {now : Nat} {mgr : List Post} {q : Post}
    (h : postVisible db now q = false) : q ∉ query_post db now mgr true := by
  intro hmem
  have := (mem_query_post_true_iff.mp hmem).2
  rw [h] at this
  exact absurd this (by simp)

theorem paginate_items_subset (xs : List α) (n k : Nat) : (paginate xs n k).items ⊆ xs := by
  intro x hx
  unfold paginate at hx
  exact List.drop_subset _ _ (List.take_subset _ _ hx)

theorem exists_page_mem (xs : List α) (x : α) (hx : x ∈ xs) :
    ∃ n, x ∈ (paginate xs n 10).items := by
  obtain ⟨i, hi, hget⟩ := List.mem_iff_getElem.mp hx
  refine ⟨i / 10 + 1, ?_⟩
  have htot : i / 10 + 1 ≤ totalPagesOf xs.length 10 := by
    unfold totalPagesOf
    omega
  have hclamp : clampPage (i / 10 + 1) (totalPagesOf xs.length 10) = i / 10 + 1 := by
    unfold clampPage
    omega
  have hdrop : (xs.drop (i / 10 * 10))[i % 10]? = some x := by
    rw [List.getElem?_drop]
    have hidx : i / 10 * 10 + i % 10 = i := by omega
    rw [hidx, List.getElem?_eq_getElem hi, hget]
  have htake : ((xs.drop (i / 10 * 10)).take 10)[i % 10]? = some x := by
    rw [List.getElem?_take]
    have hlt : i % 10 < 10 := Nat.mod_lt _ (by decide)
    simp [hlt, hdrop]
  obtain ⟨hlt, he⟩ := List.getElem?_eq_some_iff.mp htake
  unfold paginate
  rw [hclamp]
  have hmul : i / 10 + 1 - 1 = i / 10 := by omega
  rw [hmul]
  exact he ▸ List.getElem_mem hlt

/-! ### Concrete records used by the witnesses -/

/-- Concrete user: post author. -/
def alice : User := { id := 1, username := "alice", first_name := "", last_name := "", email := "" }

/-- Concrete user: not an author of alice's records. -/
def bob : User := { id := 2, username := "bob", first_name := "", last_name := "", email := "" }

/-- A published category. -/
def pubCat : Category :=
  { id := 1, title := "c", slug := "stuff", description := "", is_published := true }

/-- An unpublished category. -/
def hidCat : Category :=
  { id := 2, title := "h", slug := "hidden", description := "", is_published := false }

/-- A visible post by alice in the published category. -/
def postVis : Post :=
  { id := 1, title := "", text := "", pub_date := 10, is_published := true,
    created_at := 0, author := 1, category := some 1, location := none }

/-- An unpublished post by alice. -/
def postHid : Post :=
  { id := 2, title := "", text := "", pub_date := 10, is_published := false,
    created_at := 0, author := 1, category := none, location := none }

/-- A comment by bob on post 1. -/
def commentB : Comment := { id := 1, text := "b", created_at := 7, author := 2, post := 1 }

/-- A comment by alice on post 1. -/
def commentA : Comment := { id := 2, text := "a", created_at := 3, author := 1, post := 1 }

/-- A valid post submission whose raw data claims another author. -/
def formW : PostSubmission :=
  { title := "t", text := "x", pub_date := 5, is_published := true,
    category := some 1, location := none, author := some 1, valid := true }

/-- An invalid post submission. -/
def badPostForm : PostSubmission :=
  { title := "", text := "", pub_date := 5, is_published := true,
    category := none, location := none, author := none, valid := false }

/-- An invalid comment submission. -/
def badComment : CommentSubmission := { text := "", valid := false }

/-- An invalid profile submission. -/
def badProfile : ProfileSubmission :=
  { username := "", first_name := "", last_name := "", email := "", valid := false }

/-- A valid comment submission. -/
def okComment : CommentSubmission := { text := "y", valid := true }

/-- A published post with the given id, for the pagination scenario. -/
def simplePost (i : Nat) : Post :=
  { id := i, title := "", text := "", pub_date := i, is_published := true,
    created_at := 0, author := 1, category := none, location := none }

/-- A database containing 23 published posts. -/
def db23 : Db :=
  { users := [alice], categories := [], posts := (List.range 23).map simplePost, comments := [] }

/-- The concrete database used by the witnesses; the current time is 100. -/
def dbW : Db :=
  { users := [alice, bob]
    categories := [pubCat, hidCat]
    posts := [postVis, postHid]
    comments := [commentB, commentA] }

/-! ### Claims -/

/-- C1: a post that is unpublished, future-dated, or in an unpublished
category (`postVisible = false`) is absent from the index queryset, every
category queryset and every profile queryset — and from every page served
from them — for any viewer who is not the post's author. -/
theorem C1_invisible_absent_from_listings (db : Db) (now : Nat) (viewer : Option User)
    (p : Post)
    (hvis : postVisible db now p = false)
    (hauth : isAuthorU viewer p.author = false) :
    (p ∉ index_queryset db now ∧
      ∀ n, p ∉ (posts_pagination (index_queryset db now) n).items) ∧
    (∀ cat : Category, p ∉ category_queryset db now cat ∧
      ∀ n, p ∉ (posts_pagination (category_queryset db now cat) n).items) ∧
    (∀ prof : User, p ∉ profile_queryset db now viewer prof ∧
      ∀ n, p ∉ (posts_pagination (profile_queryset db now viewer prof) n).items) := by
  have pageOf : ∀ (xs : List Post), p ∉ xs → ∀ n, p ∉ (posts_pagination xs n).items := by
    intro xs hxs n hmem
    exact hxs (paginate_items_subset xs n 10 hmem)
  have hidx : p ∉ index_queryset db now := not_mem_query_post_filtered hvis
  have hcat : ∀ cat : Category, p ∉ category_queryset db now cat := by
    intro cat
    exact not_mem_query_post_filtered hvis
  have hprof : ∀ prof : User, p ∉ profile_queryset db now viewer prof := by
    intro prof hmem
    unfold profile_queryset at hmem
    by_cases hself : isAuthorU viewer prof.id = true
    · rw [hself] at hmem
      rw [Bool.not_true] at hmem
      obtain ⟨hpm, hpa⟩ := List.mem_filter.mp (mem_query_post_false.mp hmem)
      have hpa2 : p.author = prof.id := by simpa using hpa
      rw [hpa2, hself] at hauth
      exact Bool.true_eq_false.mp hauth
    · have hself2 : isAuthorU viewer prof.id = false := by
        simpa using hself
      rw [hself2] at hmem
      rw [Bool.not_false] at hmem
      exact not_mem_query_post_filtered hvis hmem
  exact ⟨⟨hidx, pageOf _ hidx⟩,
    fun cat => ⟨hcat cat, pageOf _ (hcat cat)⟩,
    fun prof => ⟨hprof prof, pageOf _ (hprof prof)⟩⟩

/-- Witness for C1: the unpublished post `postHid` never shows up for the
anonymous viewer: not in the index queryset or its first page, not in the
published category's queryset, not in alice's profile queryset. -/
theorem C1_witness :
    postVisible dbW 100 postHid = false ∧
    isAuthorU none postHid.author = false ∧
    postHid ∉ index_queryset dbW 100 ∧
    postHid ∉ (posts_pagination (index_queryset dbW 100) 1).items ∧
    postHid ∉ category_queryset dbW 100 pubCat ∧
    postHid ∉ profile_queryset dbW 100 none alice :=
  ⟨by decide, by decide,
    (C1_invisible_absent_from_listings dbW 100 none postHid (by decide) (by decide)).1.1,
    (C1_invisible_absent_from_listings dbW 100 none postHid (by decide) (by decide)).1.2 1,
    ((C1_invisible_absent_from_listings dbW 100 none postHid (by decide) (by decide)).2.1 pubCat).1,
    ((C1_invisible_absent_from_listings dbW 100 none postHid (by decide) (by decide)).2.2 alice).1⟩

/-- C2: when the acting identity is not the record's author, the edit and
delete handlers for posts and comments leave the database untouched and
redirect to the parent post's detail view (a post is its own parent; for a
comment the request's URL names the comment's parent post).  The two record
kinds carry independent hypotheses: the comment part needs only that the
actor is not the comment's author, the post part only that the actor is not
the post's author. -/
theorem C2_nonauthor_noop_redirect (db : Db) (user : User) (post_id comment_id : Nat)
    (sp : Option PostSubmission) (sc : Option CommentSubmission) (isPost : Bool) :
    (∀ p : Post, get_object_or_404 db.posts (fun q => q.id == post_id) = some p →
      user.id ≠ p.author →
      p.id = post_id ∧
      edit_post db user post_id sp = (db, Response.redirect (Target.post_detail p.id)) ∧
      delete_post db user post_id isPost sp = (db, Response.redirect (Target.post_detail p.id))) ∧
    (∀ c : Comment, get_object_or_404 db.comments (fun q => q.id == comment_id) = some c →
      user.id ≠ c.author →
      c.post = post_id →
      edit_comment db user post_id comment_id sc =
        (db, Response.redirect (Target.post_detail c.post)) ∧
      delete_comment db user post_id comment_id isPost =
        (db, Response.redirect (Target.post_detail c.post))) := by
  constructor
  · intro p hp hpu
    have hpid : p.id = post_id := by
      have := List.find?_some hp
      simpa using this
    have hbp : (user.id == p.author) = false := by
      simpa using hpu
    refine ⟨hpid, ?_, ?_⟩
    · unfold edit_post
      rw [hp]
      simp [hbp, hpid]
    · unfold delete_post
      rw [hp]
      simp [hbp, hpid]
  · intro c hc hcu hparent
    have hbc : (user.id == c.author) = false := by
      simpa using hcu
    constructor
    · unfold edit_comment
      rw [hc]
      simp [hbc, hparent]
    · unfold delete_comment
      rw [hc]
      simp [hbc, hparent]

/-- Witness for C2: bob is not the author of alice's post 1, so his edit and
delete requests mutate nothing and redirect to the post's detail view; and
alice — the author of post 1 but not of bob's comment 1 on it — likewise
cannot touch that comment and is redirected to the parent post. -/
theorem C2_witness :
    bob.id ≠ postVis.author ∧ alice.id ≠ commentB.author ∧ commentB.post = 1 ∧
    (postVis.id = 1 ∧
      edit_post dbW bob 1 none = (dbW, Response.redirect (Target.post_detail postVis.id)) ∧
      delete_post dbW bob 1 true none = (dbW, Response.redirect (Target.post_detail postVis.id))) ∧
    (edit_comment dbW alice 1 1 none = (dbW, Response.redirect (Target.post_detail commentB.post)) ∧
      delete_comment dbW alice 1 1 true = (dbW, Response.redirect (Target.post_detail commentB.post))) :=
  ⟨by decide, by decide, by decide,
    (C2_nonauthor_noop_redirect dbW bob 1 1 none none true).1 postVis (by decide) (by decide),
    (C2_nonauthor_noop_redirect dbW alice 1 1 none none true).2 commentB
      (by decide) (by decide) (by decide)⟩

/-- C3: a post that exists but fails the visibility predicate yields a 404
from the detail view for every viewer who is not its author (including the
anonymous viewer), not a restricted or partial view. -/
theorem C3_invisible_detail_not_found (db : Db) (now : Nat) (viewer : Option User) (p : Post)
    (hfind : get_object_or_404 db.posts (fun q => q.id == p.id) = some p)
    (huniq : ∀ q ∈ db.posts, q.id = p.id → q = p)
    (hauth : isAuthorU viewer p.author = false)
    (hvis : postVisible db now p = false) :
    post_detail db now viewer p.id = Response.notFound := by
  have hnone : get_object_or_404 (query_post db now db.posts true) (fun q => q.id == p.id) = none := by
    unfold get_object_or_404
    rw [List.find?_eq_none]
    intro q hq hbeq
    obtain ⟨hqmem, hqvis⟩ := mem_query_post_true_iff.mp hq
    have hqeq : q = p := huniq q hqmem (by simpa using hbeq)
    rw [hqeq, hvis] at hqvis
    exact Bool.false_eq_true.mp hqvis
  unfold post_detail
  rw [hfind]
  simp [hauth, hnone]

/-- Witness for C3: the anonymous viewer requests the detail view of the
unpublished post 2 and receives a 404. -/
theorem C3_witness :
    postVisible dbW 100 postHid = false ∧
    isAuthorU none postHid.author = false ∧
    post_detail dbW 100 none postHid.id = Response.notFound :=
  ⟨by decide, by decide,
    C3_invisible_detail_not_found dbW 100 none postHid
      (by decide) (by decide) (by decide) (by decide)⟩

/-- C4: the author always gets the full detail view of their own post, and
the post appears in their own profile listing (in the queryset and on some
page), regardless of its publication state. -/
theorem C4_author_always_sees_own (db : Db) (now : Nat) (u : User) (p : Post)
    (hfind : get_object_or_404 db.posts (fun q => q.id == p.id) = some p)
    (hauth : p.author = u.id) :
    post_detail db now (some u) p.id = Response.renderDetail p (comments_of db p.id) ∧
    p ∈ profile_queryset db now (some u) u ∧
    ∃ n, p ∈ (posts_pagination (profile_queryset db now (some u) u) n).items := by
  have hmem : p ∈ db.posts := List.mem_of_find?_eq_some hfind
  have hself : isAuthorU (some u) p.author = true := by
    simp [isAuthorU, hauth]
  have hdetail : post_detail db now (some u) p.id = Response.renderDetail p (comments_of db p.id) := by
    unfold post_detail
    rw [hfind]
    simp [hself]
  have hqs : p ∈ profile_queryset db now (some u) u := by
    unfold profile_queryset
    have hselfu : isAuthorU (some u) u.id = true := by
      simp [isAuthorU]
    rw [hselfu, Bool.not_true]
    rw [mem_query_post_false]
    rw [List.mem_filter]
    exact ⟨hmem, by simp [hauth]⟩
  refine ⟨hdetail, hqs, ?_⟩
  simpa [posts_pagination] using exists_page_mem (profile_queryset db now (some u) u) p hqs

/-- Witness for C4: alice sees her own unpublished post 2 on its detail view
and in her profile listing. -/
theorem C4_witness :
    postHid.author = alice.id ∧
    postVisible dbW 100 postHid = false ∧
    (post_detail dbW 100 (some alice) postHid.id =
        Response.renderDetail postHid (comments_of dbW postHid.id) ∧
      postHid ∈ profile_queryset dbW 100 (some alice) alice ∧
      ∃ n, postHid ∈ (posts_pagination (profile_queryset dbW 100 (some alice) alice) n).items) :=
  ⟨by decide, by decide,
    C4_author_always_sees_own dbW 100 alice postHid (by decide) (by decide)⟩

/-- C5: a valid create-post submission persists exactly one new post whose
`author` is the acting identity — whatever `author` value the client put in
the form data — and redirects to the acting identity's profile. -/
theorem C5_create_post_sets_author (db : Db) (now : Nat) (user : User)
    (form : PostSubmission) (newId : Nat)
    (hvalid : form.valid = true) :
    create_post db now user (some form) newId =
      ({ db with posts := (db.posts ++ [{ PostForm_new form newId now with author := user.id }]) },
       Response.redirect (Target.profile user.username)) ∧
    ({ PostForm_new form newId now with author := user.id }).author = user.id ∧
    (∀ a : Option Nat,
      create_post db now user (some { form with author := a }) newId =
        create_post db now user (some form) newId) := by
  refine ⟨?_, rfl, ?_⟩
  · unfold create_post
    simp [hvalid]
  · intro a
    unfold create_post
    simp [hvalid, PostForm_new]

/-- Witness for C5: bob submits a valid post form that even claims alice as
author; the stored author is bob and the response goes to bob's profile. -/
theorem C5_witness :
    formW.valid = true ∧
    formW.author = some alice.id ∧
    (create_post dbW 100 bob (some formW) 7 =
        ({ dbW with posts := (dbW.posts ++ [{ PostForm_new formW 7 100 with author := bob.id }]) },
         Response.redirect (Target.profile bob.username)) ∧
      ({ PostForm_new formW 7 100 with author := bob.id }).author = bob.id ∧
      (∀ a : Option Nat,
        create_post dbW 100 bob (some { formW with author := a }) 7 =
          create_post dbW 100 bob (some formW) 7)) :=
  ⟨by decide, by decide, C5_create_post_sets_author dbW 100 bob formW 7 (by decide)⟩

/-- C6 counterexample: an invalid comment submission to `add_comment` is not
re-rendered with validation messages — the handler unconditionally redirects
to the post's detail view (nothing is persisted). -/
theorem C6_counterexample :
    (add_comment dbW 100 bob 1 (some badComment) 99).2 =
        Response.redirect (Target.post_detail 1) ∧
    Response.isRender (add_comment dbW 100 bob 1 (some badComment) 99).2 = false ∧
    (add_comment dbW 100 bob 1 (some badComment) 99).1 = dbW := by
  decide

/-- C6 as amended: a malformed submission never persists anything, and the
create-post, edit-post, edit-comment and edit-profile handlers re-render the
submission form; `add_comment` instead redirects to the post's detail view. -/
theorem C6_amended_validation_failure (db : Db) (now : Nat) (user : User)
    (post_id comment_id newId : Nat)
    (sp : PostSubmission) (sc : CommentSubmission) (spr : ProfileSubmission)
    (p : Post) (c : Comment)
    (hsp : sp.valid = false) (hsc : sc.valid = false) (hspr : spr.valid = false)
    (hp : get_object_or_404 db.posts (fun q => q.id == post_id) = some p)
    (hc : get_object_or_404 db.comments (fun q => q.id == comment_id) = some c)
    (hpu : user.id = p.author) (hcu : user.id = c.author) :
    create_post db now user (some sp) newId = (db, Response.renderCreate (some sp)) ∧
    edit_post db user post_id (some sp) = (db, Response.renderCreate (some sp)) ∧
    edit_comment db user post_id comment_id (some sc) = (db, Response.renderComment (some sc) c) ∧
    edit_profile db user spr = (db, Response.renderUser spr) ∧
    add_comment db now user post_id (some sc) newId =
      (db, Response.redirect (Target.post_detail post_id)) := by
  refine ⟨?_, ?_, ?_, ?_, ?_⟩
  · unfold create_post
    simp [hsp]
  · unfold edit_post
    rw [hp]
    simp [hpu, hsp]
  · unfold edit_comment
    rw [hc]
    simp [hcu, hsc]
  · unfold edit_profile
    simp [hspr]
  · unfold add_comment
    rw [hp]
    simp [hsc]

/-- Witness for the amended C6: alice submits invalid forms everywhere;
nothing is persisted, the edit flows re-render and `add_comment` redirects. -/
theorem C6_amended_witness :
    badPostForm.valid = false ∧ badComment.valid = false ∧ badProfile.valid = false ∧
    (create_post dbW 100 alice (some badPostForm) 7 = (dbW, Response.renderCreate (some badPostForm)) ∧
      edit_post dbW alice 1 (some badPostForm) = (dbW, Response.renderCreate (some badPostForm)) ∧
      edit_comment dbW alice 1 2 (some badComment) = (dbW, Response.renderComment (some badComment) commentA) ∧
      edit_profile dbW alice badProfile = (dbW, Response.renderUser badProfile) ∧
      add_comment dbW 100 alice 1 (some badComment) 7 =
        (dbW, Response.redirect (Target.post_detail 1))) :=
  ⟨by decide, by decide, by decide,
    C6_amended_validation_failure dbW 100 alice 1 2 7 badPostForm badComment badProfile
      postVis commentA (by decide) (by decide) (by decide) (by decide) (by decide)
      (by decide) (by decide)⟩

/-- The comment list of a detail view is insertion-sorted by `created_at`. -/
theorem comments_of_sorted (db : Db) (pid : Nat) :
    List.Sorted commentAsc (comments_of db pid) :=
  List.sorted_insertionSort commentAsc (db.comments.filter (fun c => c.post == pid))

/-- C7: whenever the detail view renders a post with a list of comments,
that list is sorted in non-decreasing `created_at` order (oldest first). -/
theorem C7_detail_comments_sorted (db : Db) (now : Nat) (viewer : Option User)
    (post_id : Nat) (p : Post) (cs : List Comment)
    (h : post_detail db now viewer post_id = Response.renderDetail p cs) :
    List.Sorted commentAsc cs := by
  unfold post_detail at h
  split at h
  · exact absurd h (by simp)
  · dsimp only at h
    split at h
    · exact absurd h (by simp)
    · injection h with h1 h2
      exact h2 ▸ comments_of_sorted db _

/-- Witness for C7: the anonymous detail view of post 1 lists the comments
oldest-first (`commentA` at time 3 before `commentB` at time 7). -/
theorem C7_witness :
    post_detail dbW 100 none 1 = Response.renderDetail postVis [commentA, commentB] ∧
    List.Sorted commentAsc [commentA, commentB] :=
  ⟨by decide,
    C7_detail_comments_sorted dbW 100 none 1 postVis [commentA, commentB] (by decide)⟩

/-- C8: a category-listing request 404s when no category carries the slug or
the matching category is unpublished, and otherwise renders the category's
posts. -/
theorem C8_category_listing (db : Db) (now : Nat) (slug : String) (pageNumber : Nat) :
    ((∀ cat ∈ db.categories, cat.slug = slug → cat.is_published = false) →
      category_posts db now slug pageNumber = Response.notFound) ∧
    (∀ cat, get_object_or_404 db.categories (fun c => c.slug == slug && c.is_published) = some cat →
      category_posts db now slug pageNumber =
        Response.renderCategory cat (posts_pagination (category_queryset db now cat) pageNumber)) := by
  constructor
  · intro hall
    have hnone : get_object_or_404 db.categories (fun c => c.slug == slug && c.is_published) = none := by
      unfold get_object_or_404
      rw [List.find?_eq_none]
      intro cat hmem hpred
      simp only [Bool.and_eq_true, beq_iff_eq] at hpred
      obtain ⟨hslug, hpub⟩ := hpred
      rw [hall cat hmem hslug] at hpub
      exact Bool.false_ne_true hpub
    unfold category_posts
    rw [hnone]
  · intro cat hfind
    unfold category_posts
    rw [hfind]

/-- Witness for C8: the slug of the unpublished category 404s; the slug of
the published category renders its listing. -/
theorem C8_witness :
    category_posts dbW 100 hidCat.slug 1 = Response.notFound ∧
    category_posts dbW 100 pubCat.slug 1 =
      Response.renderCategory pubCat (posts_pagination (category_queryset dbW 100 pubCat) 1) :=
  ⟨(C8_category_listing dbW 100 hidCat.slug 1).1 (by decide),
    (C8_category_listing dbW 100 pubCat.slug 1).2 pubCat (by decide)⟩

/-- C9: pagination always uses page size 10 and clamps the requested page
number into the valid range instead of erroring; with 23 published posts the
index serves 10 items with `hasNext` on page 1 and 3 items without `hasNext`
on page 3, and out-of-range requests land on the last or first page. -/
theorem C9_pagination_scenario :
    (∀ (xs : List Post) (n : Nat),
      posts_pagination xs n = paginate xs n 10 ∧
      (paginate xs n 10).number = clampPage n (totalPagesOf xs.length 10) ∧
      1 ≤ (paginate xs n 10).number ∧
      (paginate xs n 10).number ≤ totalPagesOf xs.length 10) ∧
    ((index_queryset db23 100).length = 23 ∧
      (posts_pagination (index_queryset db23 100) 1).items.length = 10 ∧
      (posts_pagination (index_queryset db23 100) 1).hasNext = true ∧
      (posts_pagination (index_queryset db23 100) 3).items.length = 3 ∧
      (posts_pagination (index_queryset db23 100) 3).hasNext = false ∧
      (posts_pagination (index_queryset db23 100) 99).number = 3 ∧
      (posts_pagination (index_queryset db23 100) 0).number = 1 ∧
      index db23 100 1 = Response.renderIndex (posts_pagination (index_queryset db23 100) 1)) := by
  constructor
  · intro xs n
    refine ⟨rfl, rfl, ?_, ?_⟩
    · show 1 ≤ clampPage n (totalPagesOf xs.length 10)
      unfold clampPage totalPagesOf
      omega
    · show clampPage n (totalPagesOf xs.length 10) ≤ totalPagesOf xs.length 10
      unfold clampPage
      omega
  · refine ⟨?_, ?_, ?_, ?_, ?_, ?_, ?_, rfl⟩ <;> decide

/-- C10: the comment edit and delete handlers look the comment up by
`comment_id` alone — the URL's `post_id` is never checked against the
comment's parent post — so for an arbitrary `post_id` the author's edit or
POST-delete still mutates the comment, and the redirect targets the URL's
`post_id`, not the comment's parent. -/
theorem C10_comment_parent_unchecked (db : Db) (user : User) (post_id comment_id : Nat)
    (form : CommentSubmission) (c : Comment)
    (hc : get_object_or_404 db.comments (fun q => q.id == comment_id) = some c)
    (hcu : user.id = c.author)
    (hvalid : form.valid = true) :
    edit_comment db user post_id comment_id (some form) =
      ({ db with comments := (db.comments.map
          (fun q => if q.id == comment_id then CommentForm_instance form q else q)) },
       Response.redirect (Target.post_detail post_id)) ∧
    delete_comment db user post_id comment_id true =
      ({ db with comments := (db.comments.filter (fun q => !(q.id == comment_id))) },
       Response.redirect (Target.post_detail post_id)) := by
  constructor
  · unfold edit_comment
    rw [hc]
    simp [hcu, hvalid]
  · unfold delete_comment
    rw [hc]
    simp [hcu]

/-- Witness for C10: comment 2 belongs to post 1, yet through a URL naming
post 42 alice still edits and deletes it, and both redirects go to post 42's
detail view. -/
theorem C10_witness :
    commentA.post ≠ 42 ∧
    (edit_comment dbW alice 42 2 (some okComment) =
        ({ dbW with comments := (dbW.comments.map
            (fun q => if q.id == 2 then CommentForm_instance okComment q else q)) },
         Response.redirect (Target.post_detail 42)) ∧
      delete_comment dbW alice 42 2 true =
        ({ dbW with comments := (dbW.comments.filter (fun q => !(q.id == 2))) },
         Response.redirect (Target.post_detail 42))) :=
  ⟨by decide,
    C10_comment_parent_unchecked dbW alice 42 2 okComment commentA
      (by decide) (by decide) (by decide)⟩

end Blogicum
